import Mathlib

/-!
Verification development for the email-to-invoice ingestion pipeline
(Supabase edge functions gmail-sync and classify-document, plus the
processed_emails / gmail_tokens / profiles schema).

The two HTTP handlers are shallowly embedded as pure Lean functions over an
explicit database state and an environment of external-call outcomes
(token-refresh endpoint, Gmail search, message fetch, attachment fetch and
the OpenAI classifier). Timestamps are milliseconds since the Unix epoch
(Nat); JavaScript truthiness on optional strings and numbers is made
explicit via the js* helpers below.
-/

namespace Lnvy

/-- JavaScript truthiness of an optional string value: null, undefined and
the empty string are falsy. -/
def jsTruthy : Option String → Bool
  | none => false
  | some s => s ≠ ""

/-- Truthiness of a plain string field (the empty string is falsy). -/
def jsTruthyS (s : String) : Bool := s ≠ ""

/-- The JavaScript idiom `v || d` on an optional string field. -/
def jsOrElse (v : Option String) (d : String) : String :=
  match v with
  | none => d
  | some s => if s = "" then d else s

/-- The JavaScript idiom `v || d` on an optional numeric field. -/
def jsOrElseInt (v : Option Int) (d : Int) : Int :=
  match v with
  | none => d
  | some n => if n = 0 then d else n

/-- Does the first list start with the second? -/
def startsWithL : List Char → List Char → Bool
  | _, [] => true
  | [], _ :: _ => false
  | a :: as, b :: bs => a == b && startsWithL as bs

/-- Does the first list contain the second as a contiguous run? -/
def hasInfixL (s pat : List Char) : Bool :=
  startsWithL s pat ||
    match s with
    | [] => false
    | _ :: tl => hasInfixL tl pat

/-- Boolean substring test, modelling JavaScript String.includes. -/
def containsSub (s pat : String) : Bool :=
  hasInfixL s.toList pat.toList

/-! ### Calendar arithmetic

`Date.toISOString().split('T')[0]` and `setFullYear` are modelled with the
standard civil-calendar conversions (Gregorian, UTC), valid for all
post-1970 timestamps used here. -/

/-- Days since 1970-01-01 to (year, month, day). -/
def civilFromDays (z0 : Nat) : Nat × Nat × Nat :=
  let z := z0 + 719468
  let era := z / 146097
  let doe := z % 146097
  let yoe := (doe - doe / 1460 + doe / 36524 - doe / 146096) / 365
  let y := yoe + era * 400
  let doy := doe - (365 * yoe + yoe / 4 - yoe / 100)
  let mp := (5 * doy + 2) / 153
  let d := doy - (153 * mp + 2) / 5 + 1
  let m := if mp < 10 then mp + 3 else mp - 9
  (if m ≤ 2 then y + 1 else y, m, d)

/-- (year, month, day) to days since 1970-01-01. A day count exceeding the
month length normalizes forward, exactly as a JavaScript Date does. -/
def daysFromCivil (y0 m d : Nat) : Nat :=
  let y := if m ≤ 2 then y0 - 1 else y0
  let era := y / 400
  let yoe := y % 400
  let mp := if m > 2 then m - 3 else m + 9
  let doy := (153 * mp + 2) / 5 + (d - 1)
  let doe := yoe * 365 + yoe / 4 - yoe / 100 + doy
  era * 146097 + doe - 719468

def pad2 (n : Nat) : String :=
  if n < 10 then "0" ++ toString n else toString n

/-- `new Date(ms).toISOString().split('T')[0]` -/
def isoDateOfMs (ms : Nat) : String :=
  let c := civilFromDays (ms / 86400000)
  toString c.1 ++ "-" ++ pad2 c.2.1 ++ "-" ++ pad2 c.2.2

/-- The Gmail query date format: the ISO date with every `-` replaced by
`/` (the regex replace over a date string is a character map). -/
def gmailDateStr (ms : Nat) : String :=
  String.mk ((isoDateOfMs ms).toList.map (fun c => if c == '-' then '/' else c))

/-! ### Database rows (migration 20260106140000_add_gmail_integration.sql) -/

/-- A row of `processed_emails` (the Processed-Item Ledger).
`UNIQUE(user_id, gmail_message_id)` is enforced by `insertLedger`. -/
structure LedgerRow where
  user_id : String
  email_id : String
  gmail_message_id : String
  invoice_id : Option Nat
  status : String
  rejection_reason : Option String
deriving Repr, DecidableEq

/-- A row of `invoices` as built by classify-document. -/
structure InvoiceRow where
  id : Nat
  user_id : String
  supplier_name : String
  document_number : String
  document_type : String
  document_date : String
  intake_date : String
  total_amount : Int
  business_type : String
  category : String
  status : String
  entry_method : String
deriving Repr, DecidableEq

/-- The quota-relevant columns of `profiles`. -/
structure ProfileRow where
  id : String
  document_count : Int
  document_limit : Int
deriving Repr, DecidableEq

/-- A row of `gmail_tokens` (the Credential). -/
structure TokenRow where
  user_id : String
  access_token : String
  refresh_token : String
  token_expiry : Nat
  gmail_email : String
  gmail_last_sync : Option Nat
deriving Repr, DecidableEq

/-- The datastore state visible to the two handlers. -/
structure DB where
  gmail_tokens : List TokenRow
  processed_emails : List LedgerRow
  invoices : List InvoiceRow
  profiles : List ProfileRow
  nextInvoiceId : Nat
deriving Repr, DecidableEq

/-- The dedup key of a ledger row. -/
def keyOf (r : LedgerRow) : String × String :=
  (r.user_id, r.gmail_message_id)

/-- All dedup keys currently present in the ledger. -/
def ledgerKeys (db : DB) : List (String × String) :=
  db.processed_emails.map keyOf

/-- The `.select().eq.eq.single()` existence probe on `processed_emails`. -/
def ledgerKeyExists (l : List LedgerRow) (uid mid : String) : Bool :=
  l.any (fun r => r.user_id == uid && r.gmail_message_id == mid)

/-- All ledger rows for one `(user_id, gmail_message_id)` key. -/
def rowsFor (db : DB) (uid mid : String) : List LedgerRow :=
  db.processed_emails.filter (fun r => r.user_id == uid && r.gmail_message_id == mid)

/-- `insert` into `processed_emails`: the UNIQUE(user_id, gmail_message_id)
constraint rejects a duplicate key with an error value (supabase-js does not
throw; both call sites discard the result). -/
def insertLedger (db : DB) (row : LedgerRow) : DB × Option String :=
  if ledgerKeyExists db.processed_emails row.user_id row.gmail_message_id then
    (db, some "duplicate key value violates unique constraint")
  else
    ({ db with processed_emails := db.processed_emails ++ [row] }, none)

/-- classify-document: `.update({ invoice_id, status: 'processed' }).eq(user_id).eq(gmail_message_id)`. -/
def markProcessedLinked (db : DB) (uid mid : String) (invId : Nat) : DB :=
  { db with processed_emails := db.processed_emails.map (fun r =>
      if r.user_id == uid && r.gmail_message_id == mid then
        { r with invoice_id := some invId, status := "processed" }
      else r) }

/-- classify-document: `.update({ status: 'rejected', rejection_reason }).eq(user_id).eq(gmail_message_id)`. -/
def markRejected (db : DB) (uid mid reason : String) : DB :=
  { db with processed_emails := db.processed_emails.map (fun r =>
      if r.user_id == uid && r.gmail_message_id == mid then
        { r with status := "rejected", rejection_reason := some reason }
      else r) }

/-- The `increment_document_count` RPC from migration 20260106141000. -/
def incrementDocCount (db : DB) (uid : String) : DB :=
  { db with profiles := db.profiles.map (fun p =>
      if p.id == uid then { p with document_count := p.document_count + 1 } else p) }

/-- `.from('profiles').select('document_count, document_limit').eq('id', user_id).single()` -/
def findProfile (db : DB) (uid : String) : Option ProfileRow :=
  db.profiles.find? (fun p => p.id == uid)

/-- The classify-document quota gate:
`if (profile && profile.document_count >= profile.document_limit) throw`. -/
def quotaBlocked (db : DB) (uid : String) : Bool :=
  match findProfile db uid with
  | some p => p.document_limit ≤ p.document_count
  | none => false

/-! ### classify-document (src/supabase/functions/classify-document/index.ts) -/

/-- The `data` object of the classifier verdict JSON; every field optional. -/
structure ClassData where
  supplier_name : Option String
  document_number : Option String
  document_date : Option String
  total_amount : Option Int
  vat_amount : Option Int
  business_type : Option String
  category : Option String
deriving Repr, DecidableEq

/-- The parsed classifier verdict JSON. -/
structure Classification where
  is_invoice : Bool
  document_type : Option String
  confidence : Option Int
  rejection_reason : Option String
  data : Option ClassData
deriving Repr, DecidableEq

/-- Outcome of the OpenAI chat-completions call, as seen by the handler:
`fail` covers a thrown fetch, a non-ok HTTP status (the handler throws
`OpenAI API error: ...`) and a body without `choices[0].message.content`
(a thrown property access); `ok content` is the assistant message text. -/
inductive OpenAIOutcome where
  | fail (msg : String)
  | ok (content : String)
deriving Repr, DecidableEq

/-- The classify-document request body fields the handler reads. -/
structure ClassifyReq where
  user_id : Option String
  file_data : Option String
  file_type : String
  filename : String
  gmail_message_id : Option String
deriving Repr, DecidableEq

/-- The classify-document HTTP response: a 200 with the classification JSON
(plus `invoice_id` on the accept path) or a 500 with an error message. -/
inductive ClassifyResp where
  | success (c : Classification) (invoice_id : Option Nat)
  | error (msg : String)
deriving Repr, DecidableEq

/-- `classifyResult.is_invoice` as read by gmail-sync from the response
JSON: undefined (hence falsy) on an error body. -/
def ClassifyResp.is_invoice : ClassifyResp → Bool
  | .success c _ => c.is_invoice
  | .error _ => false

structure ClassifyResult where
  db : DB
  resp : ClassifyResp
  openaiCalled : Bool
deriving Repr

/-- The invoice row built on the accept path (`invoiceData` object):
every absent extracted field is defaulted. -/
def mkInvoiceRow (id : Nat) (uid : String) (now : Nat)
    (c : Classification) (d : ClassData) : InvoiceRow :=
  { id := id
    user_id := uid
    supplier_name := jsOrElse d.supplier_name "לא זוהה"
    document_number := jsOrElse d.document_number ("AUTO-" ++ toString now)
    document_type := jsOrElse c.document_type "חשבונית מס"
    document_date := jsOrElse d.document_date (isoDateOfMs now)
    intake_date := isoDateOfMs now
    total_amount := jsOrElseInt d.total_amount 0
    business_type := jsOrElse d.business_type "עוסק מורשה"
    category := jsOrElse d.category "כללי"
    status := "חדש"
    entry_method := "דיגיטלי" }

/-- The classify-document serve handler. `parse` models the JSON extraction
of the assistant text (the markdown-fence regex plus JSON.parse): `none`
when that step throws, in which case the handler throws
`Invalid response from AI`. The invoice insert is modelled as always
succeeding (the datastore is treated as a functioning CRUD service). -/
def classifyDocument (parse : String → Option Classification) (now : Nat)
    (openai : OpenAIOutcome) (req : ClassifyReq) (db : DB) : ClassifyResult :=
  if !jsTruthy req.user_id || !jsTruthy req.file_data then
    { db := db, resp := .error "Missing required fields", openaiCalled := false }
  else
    let uid := req.user_id.getD ""
    if quotaBlocked db uid then
      { db := db, resp := .error "Document limit reached. Please upgrade your plan.",
        openaiCalled := false }
    else
      match openai with
      | .fail msg => { db := db, resp := .error msg, openaiCalled := true }
      | .ok content =>
        match parse content with
        | none => { db := db, resp := .error "Invalid response from AI", openaiCalled := true }
        | some c =>
          match c.is_invoice, c.data with
          | true, some d =>
            let inv := mkInvoiceRow db.nextInvoiceId uid now c d
            let db1 := { db with invoices := db.invoices ++ [inv],
                                 nextInvoiceId := db.nextInvoiceId + 1 }
            let db2 := if jsTruthy req.gmail_message_id then
                         markProcessedLinked db1 uid (req.gmail_message_id.getD "") inv.id
                       else db1
            let db3 := incrementDocCount db2 uid
            { db := db3, resp := .success c (some inv.id), openaiCalled := true }
          | _, _ =>
            let db1 := if jsTruthy req.gmail_message_id then
                         markRejected db uid (req.gmail_message_id.getD "")
                           (jsOrElse c.rejection_reason "Not an invoice")
                       else db
            { db := db1, resp := .success c none, openaiCalled := true }

/-! ### gmail-sync (src/supabase/functions/gmail-sync/index.ts) -/

/-- The gmail-sync request body fields the handler reads
(`initial_sync` defaults to false). -/
structure SyncReq where
  user_id : Option String
  initial_sync : Bool
deriving Repr, DecidableEq

/-- Outcome of the refresh-token exchange as seen by the handler:
`netFail` covers a thrown fetch or a body that is not JSON (`.json()`
throws); `body` is the parsed JSON with the fields the handler reads
(`refresh_token` is read by nobody: the stored one is never rotated). -/
inductive RefreshOutcome where
  | netFail (msg : String)
  | body (access_token : Option String) (refresh_token : Option String)
      (expires_in : Option Nat)
deriving Repr, DecidableEq

structure PartBody where
  attachmentId : Option String
  data : Option String
deriving Repr, DecidableEq

/-- One element of `payload.parts` of a Gmail message. -/
structure MsgPart where
  mimeType : String
  filename : String
  body : PartBody
deriving Repr, DecidableEq

/-- The part of a full Gmail message the handler reads. -/
structure GmailMessage where
  parts : Option (List MsgPart)
deriving Repr, DecidableEq

/-- External-call outcomes for one gmail-sync invocation: the refresh
exchange, the Gmail search (`none` models an absent `messages` field), the
per-message full fetch, the per-(message, attachmentId) attachment fetch
(`Option String` is the `data` field of its JSON body) and the OpenAI
outcome for the classify call of a given attachment part of message `m`.
`parse` is shared with classify-document. -/
structure SyncEnv where
  now : Nat
  refresh : RefreshOutcome
  search : Except String (Option (List String))
  fullMessage : String → Except String GmailMessage
  attachmentFetch : String → String → Except String (Option String)
  openai : String → MsgPart → OpenAIOutcome
  parse : String → Option Classification

/-- A call made to the Gmail API, with the bearer token used
(`none` is the JavaScript `undefined`, serialized as `Bearer undefined`). -/
structure GmailCall where
  endpoint : String
  token : Option String
deriving Repr, DecidableEq

/-- Observable external effects of one invocation: Gmail API calls,
classify-document calls with their responses, the subset of classify calls
that reached the OpenAI classifier, and the date bound put in the search
query. -/
structure SyncTrace where
  gmailCalls : List GmailCall
  classifyCalls : List (ClassifyReq × ClassifyResp)
  openaiCalls : List ClassifyReq
  queryDateBound : Option String
deriving Repr

def SyncTrace.empty : SyncTrace :=
  { gmailCalls := [], classifyCalls := [], openaiCalls := [], queryDateBound := none }

inductive SyncResp where
  | success (processed invoices_found total_emails : Nat)
  | error (msg : String)
deriving Repr, DecidableEq

structure SyncOutcome where
  db : DB
  tr : SyncTrace
  resp : SyncResp
deriving Repr

structure LoopState where
  db : DB
  tr : SyncTrace
  processedCount : Nat
  invoiceCount : Nat
deriving Repr

/-- `.from('gmail_tokens').select('*').eq('user_id', user_id).single()` -/
def findToken (db : DB) (uid : String) : Option TokenRow :=
  db.gmail_tokens.find? (fun r => r.user_id == uid)

/-- The token refresh step. If the stored expiry is past, the exchange
outcome is consumed: a thrown fetch or non-JSON body aborts; a JSON body
without a numeric `expires_in` aborts with the `Invalid time value`
RangeError thrown by `toISOString` on an invalid Date; otherwise the update
persists `access_token` (dropped from the update when undefined, so the
stored value is kept) and `token_expiry = now + expires_in * 1000`, and the
local access token becomes the body value (possibly undefined). -/
def refreshStage (now : Nat) (uid : String) (row : TokenRow)
    (outcome : RefreshOutcome) (db : DB) : Except String (Option String × DB) :=
  if row.token_expiry < now then
    match outcome with
    | .netFail msg => .error msg
    | .body newAccess _newRefresh expiresIn =>
      match expiresIn with
      | none => .error "Invalid time value"
      | some k =>
        let db1 := { db with gmail_tokens := db.gmail_tokens.map (fun r =>
          if r.user_id == uid then
            { r with
              access_token := match newAccess with
                | some t => t
                | none => r.access_token,
              token_expiry := now + k * 1000 }
          else r) }
        .ok (newAccess, db1)
  else
    .ok (some row.access_token, db)

/-- `incremental` mode lower bound:
`tokenData.gmail_last_sync || new Date(Date.now() - 7*24*60*60*1000)`. -/
def incrementalBoundMs (lastSync : Option Nat) (now : Nat) : Nat :=
  match lastSync with
  | some t => t
  | none => now - 7 * 24 * 60 * 60 * 1000

/-- The Gmail search query: keyword and attachment filter plus an
`after:` date. Initial mode subtracts one calendar year
(`setFullYear(getFullYear() - 1)`); incremental mode uses
`incrementalBoundMs`. Returns (date string, full query). -/
def syncQuery (initial : Bool) (lastSync : Option Nat) (now : Nat) : String × String :=
  let base := "has:attachment (חשבונית OR invoice OR receipt OR קבלה)"
  if initial then
    let c := civilFromDays (now / 86400000)
    let ds := gmailDateStr (daysFromCivil (c.1 - 1) c.2.1 c.2.2 * 86400000)
    (ds, base ++ " after:" ++ ds)
  else
    let ds := gmailDateStr (incrementalBoundMs lastSync now)
    (ds, base ++ " after:" ++ ds)

/-- `.from('gmail_tokens').update({ gmail_last_sync: now }).eq('user_id', uid)` -/
def updateLastSync (db : DB) (uid : String) (now : Nat) : DB :=
  { db with gmail_tokens := db.gmail_tokens.map (fun r =>
      if r.user_id == uid then { r with gmail_last_sync := some now } else r) }

/-- Record one Gmail API call in the loop state. -/
def addGmailCall (st : LoopState) (endpoint : String) (tok : Option String) : LoopState :=
  { st with tr := { st.tr with gmailCalls := st.tr.gmailCalls ++ [⟨endpoint, tok⟩] } }

/-- The body of the per-attachment loop: skip unless the MIME type contains
`pdf` or `image`, fetch the attachment payload (a thrown fetch propagates
to the per-message catch), call classify-document, and count. -/
def classifyAttachment (env : SyncEnv) (uid mid : String) (tok : Option String)
    (att : MsgPart) (st : LoopState) : LoopState × Option String :=
  if !containsSub att.mimeType "pdf" && !containsSub att.mimeType "image" then
    (st, none)
  else
    let st1 := addGmailCall st "attachment" tok
    match env.attachmentFetch mid (att.body.attachmentId.getD "") with
    | .error e => (st1, some e)
    | .ok dat =>
      let req : ClassifyReq :=
        { user_id := some uid, file_data := dat, file_type := att.mimeType,
          filename := att.filename, gmail_message_id := some mid }
      let res := classifyDocument env.parse env.now (env.openai mid att) req st1.db
      let st2 :=
        { st1 with
          db := res.db
          tr := { st1.tr with
            classifyCalls := st1.tr.classifyCalls ++ [(req, res.resp)]
            openaiCalls := st1.tr.openaiCalls ++ (if res.openaiCalled then [req] else []) }
          invoiceCount := st1.invoiceCount + (if res.resp.is_invoice then 1 else 0)
          processedCount := st1.processedCount + 1 }
      (st2, none)

def attLoop (env : SyncEnv) (uid mid : String) (tok : Option String) :
    List MsgPart → LoopState → LoopState × Option String
  | [], st => (st, none)
  | att :: rest, st =>
    match classifyAttachment env uid mid tok att st with
    | (st1, some e) => (st1, some e)
    | (st1, none) => attLoop env uid mid tok rest st1

/-- `fullMessage.payload.parts?.filter(part => part.filename && part.body.attachmentId) || []` -/
def attachmentsOf (msg : GmailMessage) : List MsgPart :=
  (msg.parts.getD []).filter (fun p => jsTruthyS p.filename && jsTruthy p.body.attachmentId)

/-- End of the per-message body: after the attachment loop (which either
completed or threw), insert the ledger row — status `processed` on success,
status `error` with the thrown message on failure. Both inserts discard the
unique-constraint result. -/
def finishMessage (uid mid : String) (r : LoopState × Option String) : LoopState :=
  match r with
  | (st2, some e) =>
    { st2 with db := (insertLedger st2.db ⟨uid, mid, mid, none, "error", some e⟩).1 }
  | (st2, none) =>
    { st2 with db := (insertLedger st2.db ⟨uid, mid, mid, none, "processed", none⟩).1 }

/-- The per-message body with its try/catch: skip if a ledger row already
exists, fetch the full message, run the attachment loop, then record the
outcome via `finishMessage` (a thrown full-message fetch is also caught and
recorded as an error row). -/
def processMessage (env : SyncEnv) (uid : String) (tok : Option String)
    (mid : String) (st : LoopState) : LoopState :=
  if ledgerKeyExists st.db.processed_emails uid mid then st
  else
    let st1 := addGmailCall st "message" tok
    match env.fullMessage mid with
    | .error e => finishMessage uid mid (st1, some e)
    | .ok msg => finishMessage uid mid (attLoop env uid mid tok (attachmentsOf msg) st1)

def msgLoop (env : SyncEnv) (uid : String) (tok : Option String) :
    List String → LoopState → LoopState
  | [], st => st
  | mid :: rest, st => msgLoop env uid tok rest (processMessage env uid tok mid st)

/-- The search-and-loop stage of gmail-sync: build the query (recording its
date bound), search (the first Gmail call, made with the current access
token), run the message loop over at most 20 results, update
gmail_last_sync and answer with the counters. -/
def syncSearch (env : SyncEnv) (req : SyncReq) (uid : String) (row : TokenRow)
    (tok : Option String) (db1 : DB) : SyncOutcome :=
  let q := syncQuery req.initial_sync row.gmail_last_sync env.now
  let tr1 : SyncTrace :=
    { gmailCalls := [⟨"search", tok⟩], classifyCalls := [],
      openaiCalls := [], queryDateBound := some q.1 }
  match env.search with
  | .error m => { db := db1, tr := tr1, resp := .error m }
  | .ok msgsOpt =>
    let messages := msgsOpt.getD []
    let st0 : LoopState :=
      { db := db1, tr := tr1, processedCount := 0, invoiceCount := 0 }
    let st := msgLoop env uid tok (messages.take 20) st0
    let db2 := updateLastSync st.db uid env.now
    { db := db2, tr := st.tr,
      resp := .success st.processedCount st.invoiceCount messages.length }

/-- The post-credential stage of gmail-sync: refresh if expired (an
exchange failure surfacing as a throw aborts the whole scan), then search. -/
def syncAuthed (env : SyncEnv) (req : SyncReq) (uid : String) (row : TokenRow)
    (db : DB) : SyncOutcome :=
  match refreshStage env.now uid row env.refresh db with
  | .error m => { db := db, tr := .empty, resp := .error m }
  | .ok tokDb => syncSearch env req uid row tokDb.1 tokDb.2

/-- The gmail-sync serve handler. -/
def gmailSync (env : SyncEnv) (req : SyncReq) (db : DB) : SyncOutcome :=
  if !jsTruthy req.user_id then
    { db := db, tr := .empty, resp := .error "user_id is required" }
  else
    match findToken db (req.user_id.getD "") with
    | none => { db := db, tr := .empty, resp := .error "Gmail not connected" }
    | some row => syncAuthed env req (req.user_id.getD "") row db

/-! ### Test harness: canonical single-user, single-message runs -/

/-- Harness: an environment with one candidate message and constant oracles. -/
def oneMsgEnv (now : Nat) (refresh : RefreshOutcome) (mid : String)
    (msg : Except String GmailMessage) (attData : Except String (Option String))
    (oa : OpenAIOutcome) (parse : String → Option Classification) : SyncEnv :=
  { now := now, refresh := refresh, search := .ok (some [mid]),
    fullMessage := fun _ => msg, attachmentFetch := fun _ _ => attData,
    openai := fun _ _ => oa, parse := parse }

/-- Harness: a database with one connected user, an empty ledger and an
optional quota profile (documentCount, documentLimit). -/
def oneUserDb (uid : String) (expiry : Nat) (lastSync : Option Nat)
    (profile : Option (Int × Int)) : DB where
  gmail_tokens := [⟨uid, "tokA", "tokR", expiry, "user@example.com", lastSync⟩]
  processed_emails := []
  invoices := []
  profiles := match profile with
    | some cl => [⟨uid, cl.1, cl.2⟩]
    | none => []
  nextInvoiceId := 1

/-- Harness: a PDF attachment part. -/
def pdfPart : MsgPart :=
  ⟨"application/pdf", "inv.pdf", ⟨some "a1", none⟩⟩

/-- Harness: extracted data with a supplier, number, date and amounts but
no business type and no category. -/
def acceptData : ClassData :=
  ⟨some "ACME", some "123", some "2025-01-01", some 100, some 17, none, none⟩

/-- Harness: an accepting verdict carrying `acceptData`. -/
def acceptVerdict : Classification :=
  ⟨true, some "חשבונית מס", some 95, none, some acceptData⟩

/-- Harness: a fixed reference instant, 2025-10-09 UTC. -/
def tNow : Nat := 1760000000000

/-- Harness: a plain-text part (not an invoice candidate type). -/
def textPart : MsgPart :=
  ⟨"text/plain", "note.txt", ⟨some "a2", none⟩⟩

/-- Harness: a part whose MIME type is neither application/pdf nor image/*
but contains the substring pdf. -/
def oddPdfPart : MsgPart :=
  ⟨"text/x-pdf", "weird.doc", ⟨some "a3", none⟩⟩

/-- Harness: an environment whose search yields no messages and whose other
oracles are unreachable. -/
def noMsgEnv (now : Nat) (refresh : RefreshOutcome) : SyncEnv :=
  { now := now, refresh := refresh, search := .ok none,
    fullMessage := fun _ => .error "unreachable",
    attachmentFetch := fun _ _ => .error "unreachable",
    openai := fun _ _ => .fail "unreachable", parse := fun _ => none }

/-! ### Definitions taken from the wording of the spec, for comparison -/

/-- Modelled from the spec: the incremental-mode lower bound
max(lastSyncAt, now - 7 days). -/
def specIncrementalBoundMs (lastSync : Option Nat) (now : Nat) : Nat :=
  match lastSync with
  | some t => max t (now - 7 * 24 * 60 * 60 * 1000)
  | none => now - 7 * 24 * 60 * 60 * 1000

/-- Modelled from the spec: a part is retained iff it carries a filename
and an attachment identifier and its MIME type is application/pdf or
image/*. -/
def specRetainsPart (p : MsgPart) : Bool :=
  jsTruthyS p.filename && jsTruthy p.body.attachmentId &&
    (p.mimeType == "application/pdf" || startsWithL p.mimeType.toList "image/".toList)

end Lnvy

namespace Lnvy

/-! ## Theorems about the claims -/

/-! Frame lemmas: the three ledger/profile writes leave the other tables
untouched. -/

theorem invoices_markProcessedLinked (db : DB) (u m : String) (i : Nat) :
    (markProcessedLinked db u m i).invoices = db.invoices := rfl

theorem invoices_markRejected (db : DB) (u m s : String) :
    (markRejected db u m s).invoices = db.invoices := rfl

theorem invoices_incrementDocCount (db : DB) (u : String) :
    (incrementDocCount db u).invoices = db.invoices := rfl

/-- C1: for an attachment whose verdict has isInvoice = true with extracted
data, the pipeline produces exactly one Invoice row and exactly one
LedgerEntry with status = processed — but its linkedInvoiceId is null, not
non-null: classify-document updates processed_emails before gmail-sync ever
inserts the row, so the linking update matches nothing. This evaluates the
two composed handlers at such an input and exhibits the null link. -/
theorem c1_accepted_invoice_ledger_unlinked :
    (gmailSync
      (oneMsgEnv tNow (.netFail "unused") "m1" (.ok ⟨some [pdfPart]⟩)
        (.ok (some "B64")) (.ok "raw") (fun _ => some acceptVerdict))
      ⟨some "u1", false⟩
      (oneUserDb "u1" (tNow + 1000) none (some (0, 5)))).db.invoices.length = 1 ∧
    (rowsFor
      (gmailSync
        (oneMsgEnv tNow (.netFail "unused") "m1" (.ok ⟨some [pdfPart]⟩)
          (.ok (some "B64")) (.ok "raw") (fun _ => some acceptVerdict))
        ⟨some "u1", false⟩
        (oneUserDb "u1" (tNow + 1000) none (some (0, 5)))).db "u1" "m1").map
      (fun r => (r.status, r.invoice_id)) = [("processed", (none : Option Nat))] := by
  decide

/-- C2 counterexample: when the classifier output is unparsable, the
classify call does fail with the InvalidClassifierResponse error and no
Invoice is created, but the ledger entry for the owning message ends with
status = processed and a null reason, not status = error: gmail-sync never
checks the classify response and inserts the row as processed. -/
theorem c2_unparsable_marks_processed :
    (gmailSync
      (oneMsgEnv tNow (.netFail "unused") "m1" (.ok ⟨some [pdfPart]⟩)
        (.ok (some "B64")) (.ok "garbage") (fun _ => none))
      ⟨some "u1", false⟩
      (oneUserDb "u1" (tNow + 1000) none (some (0, 5)))).db.invoices = [] ∧
    (gmailSync
      (oneMsgEnv tNow (.netFail "unused") "m1" (.ok ⟨some [pdfPart]⟩)
        (.ok (some "B64")) (.ok "garbage") (fun _ => none))
      ⟨some "u1", false⟩
      (oneUserDb "u1" (tNow + 1000) none (some (0, 5)))).tr.classifyCalls.map
        (fun x => x.2) = [.error "Invalid response from AI"] ∧
    (rowsFor
      (gmailSync
        (oneMsgEnv tNow (.netFail "unused") "m1" (.ok ⟨some [pdfPart]⟩)
          (.ok (some "B64")) (.ok "garbage") (fun _ => none))
        ⟨some "u1", false⟩
        (oneUserDb "u1" (tNow + 1000) none (some (0, 5)))).db "u1" "m1").map
      (fun r => (r.status, r.rejection_reason)) =
      [("processed", (none : Option String))] := by
  decide

/-- C3 counterexample: a user at the document limit (5 of 5) submitting one
attachment is blocked by the quota gate and no OpenAI call is made, but the
ledger entry for the owning message IS inserted with status = processed by
gmail-sync, contradicting the claim that it is not marked processed. -/
theorem c3_quota_blocked_still_processed :
    (gmailSync
      (oneMsgEnv tNow (.netFail "unused") "m1" (.ok ⟨some [pdfPart]⟩)
        (.ok (some "B64")) (.ok "raw") (fun _ => some acceptVerdict))
      ⟨some "u1", false⟩
      (oneUserDb "u1" (tNow + 1000) none (some (5, 5)))).tr.openaiCalls = [] ∧
    (gmailSync
      (oneMsgEnv tNow (.netFail "unused") "m1" (.ok ⟨some [pdfPart]⟩)
        (.ok (some "B64")) (.ok "raw") (fun _ => some acceptVerdict))
      ⟨some "u1", false⟩
      (oneUserDb "u1" (tNow + 1000) none (some (5, 5)))).tr.classifyCalls.map
        (fun x => x.2) =
      [.error "Document limit reached. Please upgrade your plan."] ∧
    (gmailSync
      (oneMsgEnv tNow (.netFail "unused") "m1" (.ok ⟨some [pdfPart]⟩)
        (.ok (some "B64")) (.ok "raw") (fun _ => some acceptVerdict))
      ⟨some "u1", false⟩
      (oneUserDb "u1" (tNow + 1000) none (some (5, 5)))).db.invoices = [] ∧
    (rowsFor
      (gmailSync
        (oneMsgEnv tNow (.netFail "unused") "m1" (.ok ⟨some [pdfPart]⟩)
          (.ok (some "B64")) (.ok "raw") (fun _ => some acceptVerdict))
        ⟨some "u1", false⟩
        (oneUserDb "u1" (tNow + 1000) none (some (5, 5)))).db "u1" "m1").map
      (fun r => r.status) = ["processed"] := by
  decide

/-- C4 counterexample: with an expired credential and a failed refresh
exchange whose JSON error body happens to carry expires_in but no
access_token, the scan does NOT abort: it returns success, updates the
stored expiry, and issues the Gmail search with an undefined bearer token
(`token := none`). -/
theorem c4_refresh_failure_not_aborted :
    (gmailSync (noMsgEnv tNow (.body none none (some 3600)))
      ⟨some "u1", false⟩ (oneUserDb "u1" 0 none none)).resp =
      .success 0 0 0 ∧
    (gmailSync (noMsgEnv tNow (.body none none (some 3600)))
      ⟨some "u1", false⟩ (oneUserDb "u1" 0 none none)).tr.gmailCalls =
      [⟨"search", none⟩] := by
  decide

/-- C5 counterexample: an incremental scan whose stored lastSyncAt is 10
days before now uses 10 days ago as the query lower bound, not the
max(lastSyncAt, now - 7 days) = 7 days ago that the claim states. -/
theorem c5_bound_is_last_sync_not_max :
    (gmailSync (noMsgEnv tNow (.netFail "unused"))
      ⟨some "u1", false⟩
      (oneUserDb "u1" (tNow + 1000) (some (tNow - 10 * 86400000)) none)).tr.queryDateBound =
      some "2025/09/29" ∧
    gmailDateStr (specIncrementalBoundMs (some (tNow - 10 * 86400000)) tNow) =
      "2025/10/02" ∧
    ("2025/09/29" : String) ≠ "2025/10/02" := by
  decide

/-- C7 counterexample: a part with MIME type text/x-pdf (neither
application/pdf nor image/*) carrying a filename and attachment id is
retained and classified, because the code tests substring containment of
pdf/image; the spec-worded filter would keep only the real PDF. -/
theorem c7_substring_mime_filter :
    (gmailSync
      (oneMsgEnv tNow (.netFail "unused") "m1"
        (.ok ⟨some [pdfPart, textPart, oddPdfPart]⟩)
        (.ok (some "B64")) (.ok "raw") (fun _ => none))
      ⟨some "u1", false⟩
      (oneUserDb "u1" (tNow + 1000) none none)).tr.classifyCalls.map
        (fun x => x.1.filename) = ["inv.pdf", "weird.doc"] ∧
    ([pdfPart, textPart, oddPdfPart].filter specRetainsPart).map
      (fun p => p.filename) = ["inv.pdf"] := by
  decide

/-! Invariance lemmas for the per-message loop: the query date bound is
fixed before the loop and never modified afterwards. -/

theorem qdb_classifyAttachment (env : SyncEnv) (uid mid : String)
    (tok : Option String) (att : MsgPart) (st : LoopState) :
    ((classifyAttachment env uid mid tok att st).1).tr.queryDateBound =
      st.tr.queryDateBound := by
  unfold classifyAttachment
  split
  · rfl
  · cases h : env.attachmentFetch mid (att.body.attachmentId.getD "") <;>
      simp [h, addGmailCall]

theorem qdb_attLoop (env : SyncEnv) (uid mid : String) (tok : Option String)
    (atts : List MsgPart) (st : LoopState) :
    ((attLoop env uid mid tok atts st).1).tr.queryDateBound =
      st.tr.queryDateBound := by
  induction atts generalizing st with
  | nil => rfl
  | cons a rest ih =>
    have hca := qdb_classifyAttachment env uid mid tok a st
    unfold attLoop
    cases h : classifyAttachment env uid mid tok a st with
    | mk st1 eopt =>
      rw [h] at hca
      cases eopt with
      | none => rw [ih st1]; exact hca
      | some e => exact hca

theorem tr_finishMessage (uid mid : String) (r : LoopState × Option String) :
    (finishMessage uid mid r).tr = r.1.tr := by
  obtain ⟨st2, eopt⟩ := r
  cases eopt <;> rfl

theorem qdb_processMessage (env : SyncEnv) (uid : String) (tok : Option String)
    (mid : String) (st : LoopState) :
    (processMessage env uid tok mid st).tr.queryDateBound =
      st.tr.queryDateBound := by
  unfold processMessage
  split
  · rfl
  · cases hm : env.fullMessage mid with
    | error e => rw [tr_finishMessage]; simp [addGmailCall]
    | ok msg =>
      rw [tr_finishMessage, qdb_attLoop]
      simp [addGmailCall]

theorem qdb_msgLoop (env : SyncEnv) (uid : String) (tok : Option String)
    (ms : List String) (st : LoopState) :
    (msgLoop env uid tok ms st).tr.queryDateBound = st.tr.queryDateBound := by
  induction ms generalizing st with
  | nil => rfl
  | cons m rest ih =>
    unfold msgLoop
    rw [ih (processMessage env uid tok m st), qdb_processMessage]

/-- C5 (amended): in incremental mode the lower date bound of the search
query is lastSyncAt when one is stored and now - 7 days otherwise
(`incrementalBoundMs`), not the max of the two. -/
theorem c5_amended_incremental_bound (env : SyncEnv) (req : SyncReq) (db : DB)
    (uid : String) (row : TokenRow)
    (hu : req.user_id = some uid) (hne : uid ≠ "")
    (hrow : findToken db uid = some row)
    (hexp : ¬ row.token_expiry < env.now)
    (hmode : req.initial_sync = false) :
    (gmailSync env req db).tr.queryDateBound =
      some (gmailDateStr (incrementalBoundMs row.gmail_last_sync env.now)) := by
  have hj : jsTruthy req.user_id = true := by rw [hu]; simpa [jsTruthy] using hne
  have huid : req.user_id.getD "" = uid := by rw [hu]; rfl
  have hg : gmailSync env req db = syncAuthed env req uid row db := by
    unfold gmailSync
    rw [huid, hrow]
    simp [hj]
  rw [hg]
  have hrs : refreshStage env.now uid row env.refresh db =
      .ok (some row.access_token, db) := by
    unfold refreshStage
    rw [if_neg hexp]
  unfold syncAuthed
  rw [hrs]
  show (syncSearch env req uid row (some row.access_token) db).tr.queryDateBound = _
  unfold syncSearch syncQuery
  rw [hmode]
  simp only [Bool.false_eq_true, if_false]
  cases hs : env.search with
  | error m => rfl
  | ok msgsOpt => simp [qdb_msgLoop]

/-- Witness for the C5 amended theorem at a concrete run whose stored
lastSyncAt is 10 days before now. -/
theorem c5_amended_incremental_bound_witness :
    ("u1" : String) ≠ "" ∧
    (gmailSync (noMsgEnv tNow (.netFail "unused")) ⟨some "u1", false⟩
        (oneUserDb "u1" (tNow + 1000) (some (tNow - 10 * 86400000)) none)).tr.queryDateBound =
      some (gmailDateStr (incrementalBoundMs (some (tNow - 10 * 86400000))
        (noMsgEnv tNow (.netFail "unused")).now)) :=
  ⟨by decide,
   c5_amended_incremental_bound (noMsgEnv tNow (.netFail "unused"))
     ⟨some "u1", false⟩
     (oneUserDb "u1" (tNow + 1000) (some (tNow - 10 * 86400000)) none) "u1"
     ⟨"u1", "tokA", "tokR", tNow + 1000, "user@example.com",
       some (tNow - 10 * 86400000)⟩
     rfl (by decide) (by decide) (by decide) rfl⟩

/-! Ledger-key preservation: the two classify-document ledger updates
rewrite fields of existing rows but never change a row key, and the other
classify-document writes do not touch the ledger at all. -/

theorem ledgerKeys_markProcessedLinked (db : DB) (u m : String) (i : Nat) :
    ledgerKeys (markProcessedLinked db u m i) = ledgerKeys db := by
  show (db.processed_emails.map _).map keyOf = _
  rw [List.map_map]
  apply List.map_congr_left
  intro a _
  by_cases hb : a.user_id = u ∧ a.gmail_message_id = m <;> simp [keyOf, hb]

theorem ledgerKeys_markRejected (db : DB) (u m s : String) :
    ledgerKeys (markRejected db u m s) = ledgerKeys db := by
  show (db.processed_emails.map _).map keyOf = _
  rw [List.map_map]
  apply List.map_congr_left
  intro a _
  by_cases hb : a.user_id = u ∧ a.gmail_message_id = m <;> simp [keyOf, hb]

theorem ledgerKeys_incrementDocCount (db : DB) (u : String) :
    ledgerKeys (incrementDocCount db u) = ledgerKeys db := rfl

theorem classifyResult_db_mk (x : DB) (r : ClassifyResp) (b : Bool) :
    (ClassifyResult.mk x r b).db = x := rfl

theorem ledgerKeys_classifyDocument (parse : String → Option Classification)
    (now : Nat) (oa : OpenAIOutcome) (req : ClassifyReq) (db : DB) :
    ledgerKeys (classifyDocument parse now oa req db).db = ledgerKeys db := by
  unfold classifyDocument
  repeat' split
  all_goals (
    by_cases hq : quotaBlocked db (req.user_id.getD "") = true
    · try rw [if_pos hq]
      try rfl
    · try rw [if_neg hq]
      try simp only [classifyResult_db_mk, ledgerKeys_incrementDocCount,
        ledgerKeys_markProcessedLinked, ledgerKeys_markRejected]
      try rfl)

/-- classify-document never inserts ledger rows: on an empty ledger the
ledger stays empty. -/
theorem classify_processed_nil (parse : String → Option Classification)
    (now : Nat) (oa : OpenAIOutcome) (req : ClassifyReq) (db : DB)
    (h : db.processed_emails = []) :
    (classifyDocument parse now oa req db).db.processed_emails = [] := by
  have hk := ledgerKeys_classifyDocument parse now oa req db
  unfold ledgerKeys at hk
  rw [h] at hk
  simpa using List.map_eq_nil_iff.mp hk

/-- Symbolic evaluation of the canonical one-message, one-PDF-attachment
scan: the outcome is determined by the classify-document result on the
request gmail-sync builds, and the ledger row is always inserted afterwards
with status processed. -/
theorem oneMsg_run (now expiry : Nat) (uid mid dat : String) (ls : Option Nat)
    (prof : Option (Int × Int)) (rf : RefreshOutcome) (oa : OpenAIOutcome)
    (parse : String → Option Classification)
    (hne : uid ≠ "") (_hdat : dat ≠ "") (hexp : ¬ expiry < now) :
    gmailSync (oneMsgEnv now rf mid (.ok ⟨some [pdfPart]⟩) (.ok (some dat)) oa parse)
      ⟨some uid, false⟩ (oneUserDb uid expiry ls prof) =
    { db := updateLastSync
        ((insertLedger
          (classifyDocument parse now oa
            ⟨some uid, some dat, "application/pdf", "inv.pdf", some mid⟩
            (oneUserDb uid expiry ls prof)).db
          ⟨uid, mid, mid, none, "processed", none⟩).1) uid now
      tr := { gmailCalls := [⟨"search", some "tokA"⟩, ⟨"message", some "tokA"⟩,
                ⟨"attachment", some "tokA"⟩]
              classifyCalls := [(⟨some uid, some dat, "application/pdf", "inv.pdf", some mid⟩,
                (classifyDocument parse now oa
                  ⟨some uid, some dat, "application/pdf", "inv.pdf", some mid⟩
                  (oneUserDb uid expiry ls prof)).resp)]
              openaiCalls := if (classifyDocument parse now oa
                  ⟨some uid, some dat, "application/pdf", "inv.pdf", some mid⟩
                  (oneUserDb uid expiry ls prof)).openaiCalled then
                  [⟨some uid, some dat, "application/pdf", "inv.pdf", some mid⟩] else []
              queryDateBound := some (syncQuery false ls now).1 }
      resp := .success 1
        (if (classifyDocument parse now oa
            ⟨some uid, some dat, "application/pdf", "inv.pdf", some mid⟩
            (oneUserDb uid expiry ls prof)).resp.is_invoice then 1 else 0) 1 } := by
  have hj : jsTruthy (some uid) = true := by simpa [jsTruthy] using hne
  have hrow : findToken (oneUserDb uid expiry ls prof) uid =
      some ⟨uid, "tokA", "tokR", expiry, "user@example.com", ls⟩ := by
    simp [findToken, oneUserDb, List.find?]
  have hatt : attachmentsOf ⟨some [pdfPart]⟩ = [pdfPart] := by decide
  have hm1 : containsSub "application/pdf" "pdf" = true := by decide
  have hm2 : containsSub "application/pdf" "image" = false := by decide
  have hnil : (classifyDocument parse now oa
      ⟨some uid, some dat, "application/pdf", "inv.pdf", some mid⟩
      (oneUserDb uid expiry ls prof)).db.processed_emails = [] :=
    classify_processed_nil _ _ _ _ _ rfl
  have hpe0 : (oneUserDb uid expiry ls prof).processed_emails = [] := rfl
  simp only [gmailSync, oneMsgEnv, Option.getD_some, hj, Bool.not_true,
    Bool.false_eq_true, if_false, hrow, syncAuthed, refreshStage, hexp,
    if_true, syncSearch, msgLoop, processMessage, attLoop, classifyAttachment,
    finishMessage, addGmailCall, hatt, hm1, hm2, List.take, insertLedger,
    ledgerKeyExists, hpe0, List.any_nil, Bool.not_false, Bool.and_self,
    Bool.false_and, Bool.and_true, List.nil_append, List.cons_append,
    List.append_nil, List.length_cons, List.length_nil, Nat.zero_add,
    hnil, pdfPart]
/-- C2 (amended): when the classifier raw output for the single PDF
attachment cannot be parsed, the classify call fails with the
InvalidClassifierResponse error (500 Invalid response from AI) and no
Invoice row is created; but the ledger entry for the owning message is
inserted with status = processed and a null reason — the scanner never
checks the classify response. -/
theorem c2_amended_parse_failure (now expiry : Nat) (uid mid content dat : String)
    (ls : Option Nat) (cnt lim : Int) (rf : RefreshOutcome)
    (parse : String → Option Classification)
    (hne : uid ≠ "") (hdat : dat ≠ "") (hexp : ¬ expiry < now)
    (hq : cnt < lim) (hp : parse content = none) :
    (gmailSync (oneMsgEnv now rf mid (.ok ⟨some [pdfPart]⟩) (.ok (some dat))
        (.ok content) parse) ⟨some uid, false⟩
        (oneUserDb uid expiry ls (some (cnt, lim)))).db.invoices = [] ∧
    (gmailSync (oneMsgEnv now rf mid (.ok ⟨some [pdfPart]⟩) (.ok (some dat))
        (.ok content) parse) ⟨some uid, false⟩
        (oneUserDb uid expiry ls (some (cnt, lim)))).tr.classifyCalls.map
      (fun x => x.2) = [.error "Invalid response from AI"] ∧
    (rowsFor (gmailSync (oneMsgEnv now rf mid (.ok ⟨some [pdfPart]⟩)
        (.ok (some dat)) (.ok content) parse) ⟨some uid, false⟩
        (oneUserDb uid expiry ls (some (cnt, lim)))).db uid mid).map
      (fun r => (r.status, r.rejection_reason)) =
      [("processed", (none : Option String))] := by
  have hju : jsTruthy (some uid) = true := by simpa [jsTruthy] using hne
  have hjd : jsTruthy (some dat) = true := by simpa [jsTruthy] using hdat
  have hle : ¬ (lim ≤ cnt) := not_le.mpr hq
  have hqb : quotaBlocked (oneUserDb uid expiry ls (some (cnt, lim))) uid = false := by
    simp [quotaBlocked, findProfile, oneUserDb, List.find?, hle]
  have hc : classifyDocument parse now (.ok content)
      ⟨some uid, some dat, "application/pdf", "inv.pdf", some mid⟩
      (oneUserDb uid expiry ls (some (cnt, lim))) =
      ⟨oneUserDb uid expiry ls (some (cnt, lim)),
        .error "Invalid response from AI", true⟩ := by
    unfold classifyDocument
    simp only [hju, hjd, Bool.not_true, Bool.or_self, Bool.false_eq_true,
      if_false, Option.getD_some, hqb, hp]
  rw [oneMsg_run now expiry uid mid dat ls (some (cnt, lim)) rf (.ok content)
    parse hne hdat hexp, hc]
  refine ⟨?_, by simp, ?_⟩
  · simp [updateLastSync, insertLedger, ledgerKeyExists, oneUserDb]
  · simp [rowsFor, updateLastSync, insertLedger, ledgerKeyExists, oneUserDb]

/-- Witness for the C2 amended theorem at concrete values. -/
theorem c2_amended_parse_failure_witness :
    (0 : Int) < 5 ∧
    ((gmailSync (oneMsgEnv tNow (.netFail "unused") "m1" (.ok ⟨some [pdfPart]⟩)
        (.ok (some "B64")) (.ok "garbage") (fun _ => none)) ⟨some "u1", false⟩
        (oneUserDb "u1" (tNow + 1000) none (some (0, 5)))).db.invoices = [] ∧
    (gmailSync (oneMsgEnv tNow (.netFail "unused") "m1" (.ok ⟨some [pdfPart]⟩)
        (.ok (some "B64")) (.ok "garbage") (fun _ => none)) ⟨some "u1", false⟩
        (oneUserDb "u1" (tNow + 1000) none (some (0, 5)))).tr.classifyCalls.map
      (fun x => x.2) = [.error "Invalid response from AI"] ∧
    (rowsFor (gmailSync (oneMsgEnv tNow (.netFail "unused") "m1"
        (.ok ⟨some [pdfPart]⟩) (.ok (some "B64")) (.ok "garbage") (fun _ => none))
        ⟨some "u1", false⟩
        (oneUserDb "u1" (tNow + 1000) none (some (0, 5)))).db "u1" "m1").map
      (fun r => (r.status, r.rejection_reason)) =
      [("processed", (none : Option String))]) :=
  ⟨by decide,
   c2_amended_parse_failure tNow (tNow + 1000) "u1" "m1" "garbage" "B64" none 0 5
     (.netFail "unused") (fun _ => none) (by decide) (by decide) (by decide)
     (by decide) rfl⟩

/-- C3 (amended): for a user at or over the document limit, the quota gate
blocks the classify call (500 Document limit reached) before any OpenAI
call is made; but the ledger entry for the owning message is nonetheless
inserted with status = processed by the scanner. -/
theorem c3_amended_quota_block (now expiry : Nat) (uid mid dat : String)
    (ls : Option Nat) (cnt lim : Int) (rf : RefreshOutcome) (oa : OpenAIOutcome)
    (parse : String → Option Classification)
    (hne : uid ≠ "") (hdat : dat ≠ "") (hexp : ¬ expiry < now)
    (hq : lim ≤ cnt) :
    (gmailSync (oneMsgEnv now rf mid (.ok ⟨some [pdfPart]⟩) (.ok (some dat))
        oa parse) ⟨some uid, false⟩
        (oneUserDb uid expiry ls (some (cnt, lim)))).tr.openaiCalls = [] ∧
    (gmailSync (oneMsgEnv now rf mid (.ok ⟨some [pdfPart]⟩) (.ok (some dat))
        oa parse) ⟨some uid, false⟩
        (oneUserDb uid expiry ls (some (cnt, lim)))).tr.classifyCalls.map
      (fun x => x.2) =
      [.error "Document limit reached. Please upgrade your plan."] ∧
    (gmailSync (oneMsgEnv now rf mid (.ok ⟨some [pdfPart]⟩) (.ok (some dat))
        oa parse) ⟨some uid, false⟩
        (oneUserDb uid expiry ls (some (cnt, lim)))).db.invoices = [] ∧
    (rowsFor (gmailSync (oneMsgEnv now rf mid (.ok ⟨some [pdfPart]⟩)
        (.ok (some dat)) oa parse) ⟨some uid, false⟩
        (oneUserDb uid expiry ls (some (cnt, lim)))).db uid mid).map
      (fun r => (r.status, r.rejection_reason)) =
      [("processed", (none : Option String))] := by
  have hju : jsTruthy (some uid) = true := by simpa [jsTruthy] using hne
  have hjd : jsTruthy (some dat) = true := by simpa [jsTruthy] using hdat
  have hqb : quotaBlocked (oneUserDb uid expiry ls (some (cnt, lim))) uid = true := by
    simp [quotaBlocked, findProfile, oneUserDb, List.find?, hq]
  have hc : classifyDocument parse now oa
      ⟨some uid, some dat, "application/pdf", "inv.pdf", some mid⟩
      (oneUserDb uid expiry ls (some (cnt, lim))) =
      ⟨oneUserDb uid expiry ls (some (cnt, lim)),
        .error "Document limit reached. Please upgrade your plan.", false⟩ := by
    unfold classifyDocument
    simp only [hju, hjd, Bool.not_true, Bool.or_self, Bool.false_eq_true,
      if_false, Option.getD_some, hqb, if_true]
  rw [oneMsg_run now expiry uid mid dat ls (some (cnt, lim)) rf oa
    parse hne hdat hexp, hc]
  refine ⟨by simp, by simp, ?_, ?_⟩
  · simp [updateLastSync, insertLedger, ledgerKeyExists, oneUserDb]
  · simp [rowsFor, updateLastSync, insertLedger, ledgerKeyExists, oneUserDb]

/-- Witness for the C3 amended theorem at concrete values (5 of 5). -/
theorem c3_amended_quota_block_witness :
    (5 : Int) ≤ 5 ∧
    ((gmailSync (oneMsgEnv tNow (.netFail "unused") "m1" (.ok ⟨some [pdfPart]⟩)
        (.ok (some "B64")) (.ok "raw") (fun _ => some acceptVerdict))
        ⟨some "u1", false⟩
        (oneUserDb "u1" (tNow + 1000) none (some (5, 5)))).tr.openaiCalls = [] ∧
    (gmailSync (oneMsgEnv tNow (.netFail "unused") "m1" (.ok ⟨some [pdfPart]⟩)
        (.ok (some "B64")) (.ok "raw") (fun _ => some acceptVerdict))
        ⟨some "u1", false⟩
        (oneUserDb "u1" (tNow + 1000) none (some (5, 5)))).tr.classifyCalls.map
      (fun x => x.2) =
      [.error "Document limit reached. Please upgrade your plan."] ∧
    (gmailSync (oneMsgEnv tNow (.netFail "unused") "m1" (.ok ⟨some [pdfPart]⟩)
        (.ok (some "B64")) (.ok "raw") (fun _ => some acceptVerdict))
        ⟨some "u1", false⟩
        (oneUserDb "u1" (tNow + 1000) none (some (5, 5)))).db.invoices = [] ∧
    (rowsFor (gmailSync (oneMsgEnv tNow (.netFail "unused") "m1"
        (.ok ⟨some [pdfPart]⟩) (.ok (some "B64")) (.ok "raw")
        (fun _ => some acceptVerdict)) ⟨some "u1", false⟩
        (oneUserDb "u1" (tNow + 1000) none (some (5, 5)))).db "u1" "m1").map
      (fun r => (r.status, r.rejection_reason)) =
      [("processed", (none : Option String))]) :=
  ⟨by decide,
   c3_amended_quota_block tNow (tNow + 1000) "u1" "m1" "B64" none 5 5
     (.netFail "unused") (.ok "raw") (fun _ => some acceptVerdict)
     (by decide) (by decide) (by decide) (by decide)⟩

/-- With an always-succeeding attachment fetch the attachment loop never
throws. -/
theorem attLoop_snd_const (env : SyncEnv) (uid mid : String)
    (tok : Option String) (dat : Option String)
    (hfetch : ∀ m a, env.attachmentFetch m a = .ok dat) :
    ∀ (atts : List MsgPart) (st : LoopState),
      (attLoop env uid mid tok atts st).2 = none := by
  intro atts
  induction atts with
  | nil => intro st; rfl
  | cons a rest ih =>
    intro st
    unfold attLoop classifyAttachment
    cases h1 : containsSub a.mimeType "pdf" <;>
      cases h2 : containsSub a.mimeType "image" <;>
      simp only [h1, h2, Bool.not_true, Bool.not_false, Bool.and_self,
        Bool.false_and, Bool.and_false, Bool.and_true, Bool.true_and,
        Bool.false_eq_true, if_false, if_true, hfetch, addGmailCall] <;>
      exact ih _

/-- With an always-succeeding attachment fetch, the classify calls made by
the attachment loop are exactly the parts whose MIME type contains pdf or
image, in order. -/
theorem attLoop_calls_map (env : SyncEnv) (uid mid : String)
    (tok : Option String) (dat : Option String)
    (hfetch : ∀ m a, env.attachmentFetch m a = .ok dat) :
    ∀ (atts : List MsgPart) (st : LoopState),
      ((attLoop env uid mid tok atts st).1).tr.classifyCalls.map (fun x => x.1) =
        st.tr.classifyCalls.map (fun x => x.1) ++
          (atts.filter (fun p => containsSub p.mimeType "pdf" ||
            containsSub p.mimeType "image")).map
            (fun p => ⟨some uid, dat, p.mimeType, p.filename, some mid⟩) := by
  intro atts
  induction atts with
  | nil => intro st; simp [attLoop]
  | cons a rest ih =>
    intro st
    unfold attLoop classifyAttachment
    cases h1 : containsSub a.mimeType "pdf" <;>
      cases h2 : containsSub a.mimeType "image" <;>
      simp only [h1, h2, Bool.not_true, Bool.not_false, Bool.and_self,
        Bool.false_and, Bool.and_false, Bool.and_true, Bool.true_and,
        Bool.false_eq_true, if_false, if_true, List.filter_cons,
        Bool.or_self, Bool.false_or, Bool.or_false, Bool.or_true,
        Bool.true_or, hfetch, addGmailCall] <;>
      first
      | exact ih st
      | (rw [ih _]; simp [List.map_append])

/-- C7 (amended): for an arbitrary list of message parts, the parts handed
to the classifier are exactly those carrying a filename and an attachment
identifier whose MIME type contains pdf or contains image as a substring;
all other parts are dropped and the scan still answers success. -/
theorem c7_amended_attachment_filter (now expiry : Nat) (uid mid : String)
    (dat : Option String) (parts : List MsgPart) (ls : Option Nat)
    (prof : Option (Int × Int)) (rf : RefreshOutcome) (oa : OpenAIOutcome)
    (parse : String → Option Classification)
    (hne : uid ≠ "") (hexp : ¬ expiry < now) :
    (gmailSync (oneMsgEnv now rf mid (.ok ⟨some parts⟩) (.ok dat) oa parse)
      ⟨some uid, false⟩ (oneUserDb uid expiry ls prof)).tr.classifyCalls.map
        (fun x => x.1) =
      ((parts.filter (fun p => jsTruthyS p.filename && jsTruthy p.body.attachmentId)).filter
        (fun p => containsSub p.mimeType "pdf" || containsSub p.mimeType "image")).map
        (fun p => ⟨some uid, dat, p.mimeType, p.filename, some mid⟩) ∧
    ∃ pc ic, (gmailSync (oneMsgEnv now rf mid (.ok ⟨some parts⟩) (.ok dat) oa parse)
      ⟨some uid, false⟩ (oneUserDb uid expiry ls prof)).resp = .success pc ic 1 := by
  have hj : jsTruthy (some uid) = true := by simpa [jsTruthy] using hne
  have hrow : findToken (oneUserDb uid expiry ls prof) uid =
      some ⟨uid, "tokA", "tokR", expiry, "user@example.com", ls⟩ := by
    simp [findToken, oneUserDb, List.find?]
  have hpe0 : (oneUserDb uid expiry ls prof).processed_emails = [] := rfl
  simp only [gmailSync, oneMsgEnv, Option.getD_some, hj, Bool.not_true,
    Bool.false_eq_true, if_false, hrow, syncAuthed, refreshStage, hexp,
    if_true, syncSearch, msgLoop, processMessage, addGmailCall, hpe0,
    ledgerKeyExists, List.any_nil, attachmentsOf, List.take,
    List.length_cons, List.length_nil]
  rw [tr_finishMessage]
  constructor
  · rw [attLoop_calls_map _ uid mid (some "tokA") dat (fun _ _ => rfl)]
    simp
  · exact ⟨_, _, rfl⟩
/-- Witness for the C7 amended theorem: the three-part message from the
counterexample. -/
theorem c7_amended_attachment_filter_witness :
    ("u1" : String) ≠ "" ∧
    ((gmailSync (oneMsgEnv tNow (.netFail "unused") "m1"
        (.ok ⟨some [pdfPart, textPart, oddPdfPart]⟩) (.ok (some "B64"))
        (.ok "raw") (fun _ => none)) ⟨some "u1", false⟩
        (oneUserDb "u1" (tNow + 1000) none none)).tr.classifyCalls.map
        (fun x => x.1) =
      (([pdfPart, textPart, oddPdfPart].filter
          (fun p => jsTruthyS p.filename && jsTruthy p.body.attachmentId)).filter
        (fun p => containsSub p.mimeType "pdf" || containsSub p.mimeType "image")).map
        (fun p => ⟨some "u1", some "B64", p.mimeType, p.filename, some "m1"⟩) ∧
    ∃ pc ic, (gmailSync (oneMsgEnv tNow (.netFail "unused") "m1"
        (.ok ⟨some [pdfPart, textPart, oddPdfPart]⟩) (.ok (some "B64"))
        (.ok "raw") (fun _ => none)) ⟨some "u1", false⟩
        (oneUserDb "u1" (tNow + 1000) none none)).resp = .success pc ic 1) :=
  ⟨by decide,
   c7_amended_attachment_filter tNow (tNow + 1000) "u1" "m1" (some "B64")
     [pdfPart, textPart, oddPdfPart] none none (.netFail "unused") (.ok "raw")
     (fun _ => none) (by decide) (by decide)⟩

/-- C4 (amended): with an expired credential, whenever the refresh exchange
throws or returns a non-JSON body, or returns a JSON body without a numeric
expires_in (the usual OAuth error shape, on which building the expiry
update throws the Invalid time value RangeError), the whole scan aborts
with a single error result: the database is unchanged — in particular no
ledger entries are written — and no Gmail or classifier calls are made. -/
theorem c4_amended_refresh_abort (env : SyncEnv) (req : SyncReq) (db : DB)
    (uid : String) (row : TokenRow)
    (hu : req.user_id = some uid) (hne : uid ≠ "")
    (hrow : findToken db uid = some row)
    (hexp : row.token_expiry < env.now)
    (hfail : (∃ m, env.refresh = .netFail m) ∨
      ∃ a r, env.refresh = .body a r none) :
    ∃ emsg, gmailSync env req db =
      { db := db, tr := .empty, resp := .error emsg } := by
  have hj : jsTruthy req.user_id = true := by rw [hu]; simpa [jsTruthy] using hne
  have huid : req.user_id.getD "" = uid := by rw [hu]; rfl
  have hg : gmailSync env req db = syncAuthed env req uid row db := by
    unfold gmailSync
    rw [huid, hrow]
    simp [hj]
  rw [hg]
  have habort : ∃ emsg, refreshStage env.now uid row env.refresh db = .error emsg := by
    unfold refreshStage
    rw [if_pos hexp]
    rcases hfail with ⟨m, hm⟩ | ⟨a, r, hm⟩ <;> rw [hm]
    · exact ⟨m, rfl⟩
    · exact ⟨"Invalid time value", rfl⟩
  obtain ⟨emsg, he⟩ := habort
  unfold syncAuthed
  rw [he]
  exact ⟨emsg, rfl⟩

/-- Witness for the C4 amended theorem: a thrown refresh exchange aborts a
concrete scan without any writes or provider calls. -/
theorem c4_amended_refresh_abort_witness :
    ("u1" : String) ≠ "" ∧
    ∃ emsg, gmailSync (noMsgEnv tNow (.netFail "fetch failed"))
        ⟨some "u1", false⟩ (oneUserDb "u1" 0 none none) =
      { db := oneUserDb "u1" 0 none none, tr := .empty, resp := .error emsg } :=
  ⟨by decide,
   c4_amended_refresh_abort (noMsgEnv tNow (.netFail "fetch failed"))
     ⟨some "u1", false⟩ (oneUserDb "u1" 0 none none) "u1"
     ⟨"u1", "tokA", "tokR", 0, "user@example.com", none⟩
     rfl (by decide) (by decide) (by decide)
     (Or.inl ⟨"fetch failed", rfl⟩)⟩

/-! Deduplication machinery: ledger keys through the message loop. -/

theorem ledgerKeyExists_iff (l : List LedgerRow) (uid mid : String) :
    ledgerKeyExists l uid mid = true ↔ (uid, mid) ∈ l.map keyOf := by
  unfold ledgerKeyExists
  rw [List.any_eq_true]
  constructor
  · rintro ⟨r, hr, hcond⟩
    simp only [Bool.and_eq_true, beq_iff_eq] at hcond
    exact List.mem_map.mpr ⟨r, hr, by simp [keyOf, hcond.1, hcond.2]⟩
  · intro hm
    obtain ⟨r, hr, hk⟩ := List.mem_map.mp hm
    refine ⟨r, hr, ?_⟩
    simp only [keyOf, Prod.mk.injEq] at hk
    simp [hk.1, hk.2]

theorem keys_addGmailCall (st : LoopState) (e : String) (tok : Option String) :
    (addGmailCall st e tok).db = st.db := rfl

theorem keys_classifyAttachment (env : SyncEnv) (uid mid : String)
    (tok : Option String) (att : MsgPart) (st : LoopState) :
    ledgerKeys ((classifyAttachment env uid mid tok att st).1).db =
      ledgerKeys st.db := by
  unfold classifyAttachment
  split
  · rfl
  · cases h : env.attachmentFetch mid (att.body.attachmentId.getD "") with
    | error e => rfl
    | ok dat => simpa [addGmailCall] using
        ledgerKeys_classifyDocument env.parse env.now (env.openai mid att) _ st.db

theorem keys_attLoop (env : SyncEnv) (uid mid : String) (tok : Option String) :
    ∀ (atts : List MsgPart) (st : LoopState),
      ledgerKeys ((attLoop env uid mid tok atts st).1).db = ledgerKeys st.db := by
  intro atts
  induction atts with
  | nil => intro st; rfl
  | cons a rest ih =>
    intro st
    have hca := keys_classifyAttachment env uid mid tok a st
    unfold attLoop
    cases h : classifyAttachment env uid mid tok a st with
    | mk st1 eopt =>
      rw [h] at hca
      cases eopt with
      | none => rw [ih st1]; exact hca
      | some e => exact hca

theorem keys_finishMessage (uid mid : String) (r : LoopState × Option String)
    (h : ledgerKeyExists r.1.db.processed_emails uid mid = false) :
    ledgerKeys (finishMessage uid mid r).db =
      ledgerKeys r.1.db ++ [(uid, mid)] := by
  obtain ⟨st2, eopt⟩ := r
  cases eopt <;>
    simp only [finishMessage, insertLedger, h, Bool.false_eq_true, if_false] <;>
    simp [ledgerKeys, keyOf]

theorem processMessage_skip (env : SyncEnv) (uid : String) (tok : Option String)
    (mid : String) (st : LoopState)
    (h : ledgerKeyExists st.db.processed_emails uid mid = true) :
    processMessage env uid tok mid st = st := by
  unfold processMessage
  rw [if_pos h]

theorem keys_processMessage_new (env : SyncEnv) (uid : String)
    (tok : Option String) (mid : String) (st : LoopState)
    (h : ledgerKeyExists st.db.processed_emails uid mid = false) :
    ledgerKeys (processMessage env uid tok mid st).db =
      ledgerKeys st.db ++ [(uid, mid)] := by
  unfold processMessage
  rw [if_neg (by simp [h])]
  cases hm : env.fullMessage mid with
  | error e =>
    rw [keys_finishMessage uid mid _ h]
    rfl
  | ok msg =>
    have hk := keys_attLoop env uid mid tok (attachmentsOf msg)
      (addGmailCall st "message" tok)
    cases h2 : attLoop env uid mid tok (attachmentsOf msg)
        (addGmailCall st "message" tok) with
    | mk st2 eopt =>
      rw [h2] at hk
      have hk2 : ledgerKeys st2.db = ledgerKeys st.db := hk
      have hex : ledgerKeyExists st2.db.processed_emails uid mid = false := by
        by_contra hx
        rw [Bool.not_eq_false, ledgerKeyExists_iff] at hx
        have hmem : (uid, mid) ∈ ledgerKeys st.db := by
          have hmem2 : (uid, mid) ∈ ledgerKeys st2.db := hx
          rw [hk2] at hmem2
          exact hmem2
        have hcontra := (ledgerKeyExists_iff st.db.processed_emails uid mid).mpr hmem
        rw [h] at hcontra
        exact Bool.false_ne_true hcontra
      show ledgerKeys (finishMessage uid mid (attLoop env uid mid tok
        (attachmentsOf msg) (addGmailCall st "message" tok))).db = _
      rw [h2, keys_finishMessage uid mid _ hex]
      rw [show ledgerKeys (st2, eopt).1.db = ledgerKeys st.db from hk2]

theorem keys_processMessage_mono (env : SyncEnv) (uid : String)
    (tok : Option String) (mid : String) (st : LoopState) (k : String × String)
    (h : k ∈ ledgerKeys st.db) :
    k ∈ ledgerKeys (processMessage env uid tok mid st).db := by
  cases hex : ledgerKeyExists st.db.processed_emails uid mid with
  | true => rw [processMessage_skip env uid tok mid st hex]; exact h
  | false =>
    rw [keys_processMessage_new env uid tok mid st hex]
    exact List.mem_append_left _ h

theorem nodup_processMessage (env : SyncEnv) (uid : String)
    (tok : Option String) (mid : String) (st : LoopState)
    (h : (ledgerKeys st.db).Nodup) :
    (ledgerKeys (processMessage env uid tok mid st).db).Nodup := by
  cases hex : ledgerKeyExists st.db.processed_emails uid mid with
  | true => rw [processMessage_skip env uid tok mid st hex]; exact h
  | false =>
    rw [keys_processMessage_new env uid tok mid st hex]
    have hnm : (uid, mid) ∉ ledgerKeys st.db := by
      intro hx
      have := (ledgerKeyExists_iff st.db.processed_emails uid mid).mpr hx
      rw [hex] at this
      exact Bool.false_ne_true this
    rw [List.nodup_append]
    refine ⟨h, List.nodup_singleton _, ?_⟩
    intro a ha hb
    rw [List.mem_singleton] at hb
    subst hb
    exact hnm ha

theorem nodup_msgLoop (env : SyncEnv) (uid : String) (tok : Option String) :
    ∀ (ms : List String) (st : LoopState),
      (ledgerKeys st.db).Nodup → (ledgerKeys (msgLoop env uid tok ms st).db).Nodup := by
  intro ms
  induction ms with
  | nil => intro st h; exact h
  | cons m rest ih =>
    intro st h
    exact ih _ (nodup_processMessage env uid tok m st h)

theorem keys_msgLoop_mono (env : SyncEnv) (uid : String) (tok : Option String) :
    ∀ (ms : List String) (st : LoopState) (k : String × String),
      k ∈ ledgerKeys st.db → k ∈ ledgerKeys (msgLoop env uid tok ms st).db := by
  intro ms
  induction ms with
  | nil => intro st k h; exact h
  | cons m rest ih =>
    intro st k h
    exact ih _ k (keys_processMessage_mono env uid tok m st k h)

/-! Which messages the classify calls can mention. -/

theorem calls_classifyAttachment (env : SyncEnv) (uid mid : String)
    (tok : Option String) (att : MsgPart) (st : LoopState) :
    ∀ x ∈ ((classifyAttachment env uid mid tok att st).1).tr.classifyCalls,
      x ∈ st.tr.classifyCalls ∨ x.1.gmail_message_id = some mid := by
  unfold classifyAttachment
  split
  · exact fun x hx => Or.inl hx
  · cases h : env.attachmentFetch mid (att.body.attachmentId.getD "") with
    | error e => exact fun x hx => Or.inl hx
    | ok dat =>
      intro x hx
      simp only [addGmailCall, List.mem_append, List.mem_singleton] at hx
      rcases hx with hx | hx
      · exact Or.inl hx
      · right; rw [hx]

theorem calls_attLoop (env : SyncEnv) (uid mid : String) (tok : Option String) :
    ∀ (atts : List MsgPart) (st : LoopState),
      ∀ x ∈ ((attLoop env uid mid tok atts st).1).tr.classifyCalls,
        x ∈ st.tr.classifyCalls ∨ x.1.gmail_message_id = some mid := by
  intro atts
  induction atts with
  | nil => intro st x hx; exact Or.inl hx
  | cons a rest ih =>
    intro st
    have hca := calls_classifyAttachment env uid mid tok a st
    unfold attLoop
    cases h : classifyAttachment env uid mid tok a st with
    | mk st1 eopt =>
      rw [h] at hca
      cases eopt with
      | some e => exact hca
      | none =>
        intro x hx
        rcases ih st1 x hx with hx1 | hx1
        · exact hca x hx1
        · exact Or.inr hx1

theorem calls_processMessage (env : SyncEnv) (uid : String)
    (tok : Option String) (mid : String) (st : LoopState) :
    ∀ x ∈ (processMessage env uid tok mid st).tr.classifyCalls,
      x ∈ st.tr.classifyCalls ∨ x.1.gmail_message_id = some mid := by
  unfold processMessage
  split
  · exact fun x hx => Or.inl hx
  · cases hm : env.fullMessage mid with
    | error e => intro x hx; exact Or.inl (by simpa [finishMessage, addGmailCall] using hx)
    | ok msg =>
      intro x hx
      rw [tr_finishMessage] at hx
      rcases calls_attLoop env uid mid tok (attachmentsOf msg) _ x hx with hx1 | hx1
      · exact Or.inl (by simpa [addGmailCall] using hx1)
      · exact Or.inr hx1

theorem msgLoop_avoid (env : SyncEnv) (uid : String) (tok : Option String)
    (mid : String) :
    ∀ (ms : List String) (st : LoopState),
      (uid, mid) ∈ ledgerKeys st.db →
      ∀ x ∈ (msgLoop env uid tok ms st).tr.classifyCalls,
        x ∈ st.tr.classifyCalls ∨ x.1.gmail_message_id ≠ some mid := by
  intro ms
  induction ms with
  | nil => intro st _ x hx; exact Or.inl hx
  | cons m rest ih =>
    intro st hmem x hx
    by_cases hm : m = mid
    · subst hm
      have hex : ledgerKeyExists st.db.processed_emails uid m = true :=
        (ledgerKeyExists_iff _ _ _).mpr hmem
      rw [msgLoop, processMessage_skip env uid tok m st hex] at hx
      exact ih st hmem x hx
    · have hmem2 : (uid, mid) ∈ ledgerKeys (processMessage env uid tok m st).db :=
        keys_processMessage_mono env uid tok m st _ hmem
      rw [msgLoop] at hx
      rcases ih _ hmem2 x hx with hx1 | hx1
      · rcases calls_processMessage env uid tok m st x hx1 with hx2 | hx2
        · exact Or.inl hx2
        · right
          rw [hx2]
          intro hc
          exact hm (by simpa using hc)
      · exact Or.inr hx1

theorem loopState_db_mk (d : DB) (t : SyncTrace) (p i : Nat) :
    (LoopState.mk d t p i).db = d := rfl

theorem syncOutcome_db_mk (d : DB) (t : SyncTrace) (r : SyncResp) :
    (SyncOutcome.mk d t r).db = d := rfl

theorem syncOutcome_tr_mk (d : DB) (t : SyncTrace) (r : SyncResp) :
    (SyncOutcome.mk d t r).tr = t := rfl

theorem keys_updateLastSync (db : DB) (u : String) (n : Nat) :
    ledgerKeys (updateLastSync db u n) = ledgerKeys db := rfl

/-- A successful refresh stage never touches the ledger. -/
theorem refresh_pe (now : Nat) (uid : String) (row : TokenRow)
    (o : RefreshOutcome) (db : DB) (t : Option String) (db1 : DB)
    (h : refreshStage now uid row o db = .ok (t, db1)) :
    db1.processed_emails = db.processed_emails := by
  unfold refreshStage at h
  by_cases hexp : row.token_expiry < now
  · rw [if_pos hexp] at h
    cases o with
    | netFail m => exact absurd h (by simp)
    | body a r e =>
      cases e with
      | none => exact absurd h (by simp)
      | some k =>
        simp only [Except.ok.injEq, Prod.mk.injEq] at h
        obtain ⟨-, h2⟩ := h
        rw [← h2]
  · rw [if_neg hexp] at h
    simp only [Except.ok.injEq, Prod.mk.injEq] at h
    obtain ⟨-, h2⟩ := h
    rw [← h2]

/-- One whole scan preserves uniqueness of the ledger keys. -/
theorem gmailSync_nodup (env : SyncEnv) (req : SyncReq) (db : DB)
    (h : (ledgerKeys db).Nodup) :
    (ledgerKeys (gmailSync env req db).db).Nodup := by
  unfold gmailSync
  split
  · exact h
  · split
    · exact h
    · next row heq =>
      unfold syncAuthed
      split
      · exact h
      · next tokDb heqr =>
        have hkeys : ledgerKeys tokDb.2 = ledgerKeys db := by
          unfold ledgerKeys
          rw [refresh_pe env.now (req.user_id.getD "") row env.refresh db
            tokDb.1 tokDb.2 (by rw [heqr])]
        unfold syncSearch
        split <;> simp only [syncOutcome_db_mk]
        · rw [hkeys]; exact h
        · rw [keys_updateLastSync]
          exact nodup_msgLoop env (req.user_id.getD "") tokDb.1 _ _
            (by simp only [loopState_db_mk]; rw [hkeys]; exact h)

/-- If the ledger already has a row for (uid, mid), a scan for uid never
hands a request mentioning mid to classify-document. -/
theorem gmailSync_calls_avoid (env : SyncEnv) (req : SyncReq) (db : DB)
    (uid mid : String) (hu : req.user_id = some uid)
    (hmem : (uid, mid) ∈ ledgerKeys db) :
    ∀ x ∈ (gmailSync env req db).tr.classifyCalls,
      x.1.gmail_message_id ≠ some mid := by
  unfold gmailSync
  rw [hu]
  simp only [Option.getD_some]
  split
  · intro x hx
    exact absurd hx (by simp [SyncTrace.empty])
  · split
    · intro x hx
      exact absurd hx (by simp [SyncTrace.empty])
    · next row heq =>
      unfold syncAuthed
      split
      · intro x hx
        exact absurd hx (by simp [SyncTrace.empty])
      · next tokDb heqr =>
        have hkeys : ledgerKeys tokDb.2 = ledgerKeys db := by
          unfold ledgerKeys
          rw [refresh_pe env.now uid row env.refresh db
            tokDb.1 tokDb.2 (by rw [heqr])]
        unfold syncSearch
        split <;> simp only [syncOutcome_tr_mk]
        · intro x hx
          exact absurd hx (by simp)
        · intro x hx
          rcases msgLoop_avoid env uid tokDb.1 mid _ _
              (by simp only [loopState_db_mk]; rw [hkeys]; exact hmem) x hx with
            h1 | h1
          · exact absurd h1 (by simp)
          · exact h1

/-- C6: scanning the same user twice never yields two ledger rows for one
(userId, messageId) — ledger keys stay pairwise distinct across two
consecutive scans; a message recorded by the first scan is skipped before
classification by the second (no classify call of the second scan mentions
it); and an insert attempt for an existing key is rejected by the
uniqueness constraint with an error value, leaving the table unchanged —
the call sites discard that value, so it never raises. -/
theorem c6_dedup_unique (env1 env2 : SyncEnv) (req : SyncReq) (db0 : DB)
    (uid : String) (hu : req.user_id = some uid)
    (hnd : (ledgerKeys db0).Nodup) :
    (ledgerKeys (gmailSync env2 req (gmailSync env1 req db0).db).db).Nodup ∧
    (∀ mid, (uid, mid) ∈ ledgerKeys (gmailSync env1 req db0).db →
      ∀ x ∈ (gmailSync env2 req (gmailSync env1 req db0).db).tr.classifyCalls,
        x.1.gmail_message_id ≠ some mid) ∧
    (∀ (db : DB) (row : LedgerRow), keyOf row ∈ ledgerKeys db →
      insertLedger db row =
        (db, some "duplicate key value violates unique constraint")) := by
  refine ⟨gmailSync_nodup env2 req _ (gmailSync_nodup env1 req db0 hnd), ?_, ?_⟩
  · intro mid hmem
    exact gmailSync_calls_avoid env2 req _ uid mid hu hmem
  · intro db row hk
    unfold insertLedger
    rw [if_pos ((ledgerKeyExists_iff _ _ _).mpr hk)]

/-- Witness for C6: two consecutive concrete scans over the same message;
the hypotheses (request user and initially duplicate-free ledger) hold by
computation. -/
theorem c6_dedup_unique_witness :
    (ledgerKeys (oneUserDb "u1" (tNow + 1000) none (some (0, 5)))).Nodup ∧
    ((ledgerKeys (gmailSync (oneMsgEnv tNow (.netFail "unused") "m1"
        (.ok ⟨some [pdfPart]⟩) (.ok (some "B64")) (.ok "raw")
        (fun _ => some acceptVerdict)) ⟨some "u1", false⟩
        (gmailSync (oneMsgEnv tNow (.netFail "unused") "m1"
          (.ok ⟨some [pdfPart]⟩) (.ok (some "B64")) (.ok "raw")
          (fun _ => some acceptVerdict)) ⟨some "u1", false⟩
          (oneUserDb "u1" (tNow + 1000) none (some (0, 5)))).db).db).Nodup ∧
    (∀ mid, ("u1", mid) ∈ ledgerKeys (gmailSync (oneMsgEnv tNow
        (.netFail "unused") "m1" (.ok ⟨some [pdfPart]⟩) (.ok (some "B64"))
        (.ok "raw") (fun _ => some acceptVerdict)) ⟨some "u1", false⟩
        (oneUserDb "u1" (tNow + 1000) none (some (0, 5)))).db →
      ∀ x ∈ (gmailSync (oneMsgEnv tNow (.netFail "unused") "m1"
        (.ok ⟨some [pdfPart]⟩) (.ok (some "B64")) (.ok "raw")
        (fun _ => some acceptVerdict)) ⟨some "u1", false⟩
        (gmailSync (oneMsgEnv tNow (.netFail "unused") "m1"
          (.ok ⟨some [pdfPart]⟩) (.ok (some "B64")) (.ok "raw")
          (fun _ => some acceptVerdict)) ⟨some "u1", false⟩
          (oneUserDb "u1" (tNow + 1000) none (some (0, 5)))).db).tr.classifyCalls,
        x.1.gmail_message_id ≠ some mid) ∧
    (∀ (db : DB) (row : LedgerRow), keyOf row ∈ ledgerKeys db →
      insertLedger db row =
        (db, some "duplicate key value violates unique constraint"))) :=
  ⟨by decide,
   c6_dedup_unique (oneMsgEnv tNow (.netFail "unused") "m1"
       (.ok ⟨some [pdfPart]⟩) (.ok (some "B64")) (.ok "raw")
       (fun _ => some acceptVerdict))
     (oneMsgEnv tNow (.netFail "unused") "m1" (.ok ⟨some [pdfPart]⟩)
       (.ok (some "B64")) (.ok "raw") (fun _ => some acceptVerdict))
     ⟨some "u1", false⟩ (oneUserDb "u1" (tNow + 1000) none (some (0, 5)))
     "u1" rfl (by decide)⟩

/-- C10: the quota gate blocks only when a profile row exists whose
document_count has reached document_limit; when the profile read returns no
row the check is skipped entirely and the OpenAI classifier is still
called. -/
theorem c10_quota_gate_skipped_without_profile
    (parse : String → Option Classification) (now : Nat) (oa : OpenAIOutcome)
    (req : ClassifyReq) (db : DB)
    (hu : jsTruthy req.user_id = true) (hf : jsTruthy req.file_data = true) :
    (findProfile db (req.user_id.getD "") = none →
      (classifyDocument parse now oa req db).openaiCalled = true) ∧
    ((classifyDocument parse now oa req db).openaiCalled = true ↔
      quotaBlocked db (req.user_id.getD "") = false) ∧
    (quotaBlocked db (req.user_id.getD "") = true ↔
      ∃ p, findProfile db (req.user_id.getD "") = some p ∧
        p.document_limit ≤ p.document_count) := by
  have hcall : (classifyDocument parse now oa req db).openaiCalled
      = !(quotaBlocked db (req.user_id.getD "")) := by
    unfold classifyDocument
    simp only [hu, hf, Bool.not_true, Bool.false_or, Bool.or_self, if_neg,
      Bool.false_eq_true, not_false_eq_true]
    by_cases hq : quotaBlocked db (req.user_id.getD "") = true
    · simp [hq]
    · simp only [Bool.not_eq_true] at hq
      simp only [hq, Bool.false_eq_true, if_false, Bool.not_false]
      cases oa with
      | fail m => rfl
      | ok content =>
        cases hp : parse content with
        | none => simp [hp]
        | some c =>
          obtain ⟨bi, dt, cf, rr, dat⟩ := c
          cases bi <;> cases dat <;> simp [hp]
  have hquota : quotaBlocked db (req.user_id.getD "") = true ↔
      ∃ p, findProfile db (req.user_id.getD "") = some p ∧
        p.document_limit ≤ p.document_count := by
    unfold quotaBlocked
    cases hp : findProfile db (req.user_id.getD "") with
    | none => simp
    | some p => simp [hp]
  refine ⟨?_, ?_, hquota⟩
  · intro hnone
    rw [hcall]
    unfold quotaBlocked
    rw [hnone]
    rfl
  · rw [hcall]
    cases hq : quotaBlocked db (req.user_id.getD "") <;> simp

/-- Witness for C10 at a concrete input: a user with no profile row. -/
theorem c10_quota_gate_skipped_without_profile_witness :
    jsTruthy (some "u1") = true ∧
    ((findProfile (oneUserDb "u1" 0 none none) ((some "u1").getD "") = none →
      (classifyDocument (fun _ => some acceptVerdict) tNow (.ok "raw")
        ⟨some "u1", some "B64", "application/pdf", "a.pdf", none⟩
        (oneUserDb "u1" 0 none none)).openaiCalled = true) ∧
    ((classifyDocument (fun _ => some acceptVerdict) tNow (.ok "raw")
        ⟨some "u1", some "B64", "application/pdf", "a.pdf", none⟩
        (oneUserDb "u1" 0 none none)).openaiCalled = true ↔
      quotaBlocked (oneUserDb "u1" 0 none none) ((some "u1").getD "") = false) ∧
    (quotaBlocked (oneUserDb "u1" 0 none none) ((some "u1").getD "") = true ↔
      ∃ p, findProfile (oneUserDb "u1" 0 none none) ((some "u1").getD "") = some p ∧
        p.document_limit ≤ p.document_count)) :=
  ⟨by decide,
   c10_quota_gate_skipped_without_profile (fun _ => some acceptVerdict) tNow
     (.ok "raw") ⟨some "u1", some "B64", "application/pdf", "a.pdf", none⟩
     (oneUserDb "u1" 0 none none) (by decide) (by decide)⟩

/-- C9: a successful token refresh updates only the access token and the
expiry of the credential row of that user: the stored refresh token (even
when the exchange body offers a new one), the mail address, the user id and
the last-sync instant are unchanged, rows of other users are unchanged, and
no other table changes. -/
theorem c9_refresh_frame (now : Nat) (uid : String) (db : DB) (row : TokenRow)
    (newRefresh : Option String) (tok : String) (k : Nat)
    (hexp : row.token_expiry < now) :
    ∃ db1, refreshStage now uid row (.body (some tok) newRefresh (some k)) db =
        .ok (some tok, db1) ∧
      db1.gmail_tokens.map
          (fun r => (r.user_id, r.refresh_token, r.gmail_email, r.gmail_last_sync)) =
        db.gmail_tokens.map
          (fun r => (r.user_id, r.refresh_token, r.gmail_email, r.gmail_last_sync)) ∧
      (∀ r ∈ db1.gmail_tokens, r.user_id = uid →
        r.access_token = tok ∧ r.token_expiry = now + k * 1000) ∧
      (∀ r ∈ db1.gmail_tokens, r.user_id ≠ uid → r ∈ db.gmail_tokens) ∧
      db1.processed_emails = db.processed_emails ∧
      db1.invoices = db.invoices ∧ db1.profiles = db.profiles := by
  unfold refreshStage
  rw [if_pos hexp]
  refine ⟨_, rfl, ?_, ?_, ?_, rfl, rfl, rfl⟩
  · show (db.gmail_tokens.map _).map _ = _
    rw [List.map_map]
    apply List.map_congr_left
    intro a _
    by_cases h : a.user_id = uid <;> simp [h]
  · intro r hr hru
    simp only [List.mem_map] at hr
    obtain ⟨a, ha, rfl⟩ := hr
    by_cases h : a.user_id = uid
    · simp [h]
    · simp only [beq_iff_eq, h, if_false] at hru
  · intro r hr hru
    simp only [List.mem_map] at hr
    obtain ⟨a, ha, rfl⟩ := hr
    by_cases h : a.user_id = uid
    · simp only [beq_iff_eq, h, if_true] at hru
      exact absurd rfl hru
    · simpa [h] using ha

/-- Witness for C9 at a concrete credential and exchange body. -/
theorem c9_refresh_frame_witness :
    (0 : Nat) < tNow ∧
    ∃ db1, refreshStage tNow "u1"
        ⟨"u1", "tokA", "tokR", 0, "user@example.com", none⟩
        (.body (some "newTok") (some "rotated") (some 3600))
        (oneUserDb "u1" 0 none none) = .ok (some "newTok", db1) ∧
      db1.gmail_tokens.map
          (fun r => (r.user_id, r.refresh_token, r.gmail_email, r.gmail_last_sync)) =
        (oneUserDb "u1" 0 none none).gmail_tokens.map
          (fun r => (r.user_id, r.refresh_token, r.gmail_email, r.gmail_last_sync)) ∧
      (∀ r ∈ db1.gmail_tokens, r.user_id = "u1" →
        r.access_token = "newTok" ∧ r.token_expiry = tNow + 3600 * 1000) ∧
      (∀ r ∈ db1.gmail_tokens, r.user_id ≠ "u1" →
        r ∈ (oneUserDb "u1" 0 none none).gmail_tokens) ∧
      db1.processed_emails = (oneUserDb "u1" 0 none none).processed_emails ∧
      db1.invoices = (oneUserDb "u1" 0 none none).invoices ∧
      db1.profiles = (oneUserDb "u1" 0 none none).profiles :=
  ⟨by decide,
   c9_refresh_frame tNow "u1" (oneUserDb "u1" 0 none none)
     ⟨"u1", "tokA", "tokR", 0, "user@example.com", none⟩
     (some "rotated") "newTok" 3600 (by decide)⟩

/-- C8 (amended): whenever the verdict has is_invoice = true and a present
data object (and the quota gate passes), materialization runs: exactly one
invoice row is appended, and each absent extracted field gets its default —
the unknown-supplier label, an AUTO document number timestamped with the
materialization instant, the current date when no document date was
extracted, and the default business-type, category and document-type
labels. -/
theorem c8_amended_defaults (parse : String → Option Classification) (now : Nat)
    (content : String) (req : ClassifyReq) (db : DB) (c : Classification) (d : ClassData)
    (hu : jsTruthy req.user_id = true) (hf : jsTruthy req.file_data = true)
    (hq : quotaBlocked db (req.user_id.getD "") = false)
    (hp : parse content = some c) (hi : c.is_invoice = true) (hd : c.data = some d) :
    (classifyDocument parse now (.ok content) req db).db.invoices =
      db.invoices ++ [mkInvoiceRow db.nextInvoiceId (req.user_id.getD "") now c d] ∧
    (d.supplier_name = none →
      (mkInvoiceRow db.nextInvoiceId (req.user_id.getD "") now c d).supplier_name =
        "לא זוהה") ∧
    (d.document_number = none →
      (mkInvoiceRow db.nextInvoiceId (req.user_id.getD "") now c d).document_number =
        "AUTO-" ++ toString now) ∧
    (d.document_date = none →
      (mkInvoiceRow db.nextInvoiceId (req.user_id.getD "") now c d).document_date =
        isoDateOfMs now) ∧
    (d.business_type = none →
      (mkInvoiceRow db.nextInvoiceId (req.user_id.getD "") now c d).business_type =
        "עוסק מורשה") ∧
    (d.category = none →
      (mkInvoiceRow db.nextInvoiceId (req.user_id.getD "") now c d).category =
        "כללי") ∧
    (c.document_type = none →
      (mkInvoiceRow db.nextInvoiceId (req.user_id.getD "") now c d).document_type =
        "חשבונית מס") := by
  refine ⟨?_, fun h => by simp [mkInvoiceRow, jsOrElse, h],
    fun h => by simp [mkInvoiceRow, jsOrElse, h],
    fun h => by simp [mkInvoiceRow, jsOrElse, h],
    fun h => by simp [mkInvoiceRow, jsOrElse, h],
    fun h => by simp [mkInvoiceRow, jsOrElse, h],
    fun h => by simp [mkInvoiceRow, jsOrElse, h]⟩
  unfold classifyDocument
  simp only [hu, hf, Bool.not_true, Bool.or_self, Bool.false_eq_true, if_false, hq, hp]
  obtain ⟨bi, dt, cf, rr, dat⟩ := c
  simp only [Classification.is_invoice] at hi
  simp only [Classification.data] at hd
  subst hi
  subst hd
  show (incrementDocCount (if jsTruthy req.gmail_message_id = true then _ else _) _).invoices = _
  rw [invoices_incrementDocCount]
  split
  · rw [invoices_markProcessedLinked]
  · rfl

/-- Witness for the C8 amended theorem at a concrete verdict whose data
object is present but entirely empty. -/
theorem c8_amended_defaults_witness :
    jsTruthy (some "u1") = true ∧
    ((classifyDocument
        (fun _ => some ⟨true, none, none, none, some ⟨none, none, none, none, none, none, none⟩⟩)
        tNow (.ok "raw") ⟨some "u1", some "B64", "application/pdf", "a.pdf", none⟩
        (oneUserDb "u1" 0 none none)).db.invoices =
      (oneUserDb "u1" 0 none none).invoices ++
        [mkInvoiceRow (oneUserDb "u1" 0 none none).nextInvoiceId ((some "u1").getD "")
          tNow ⟨true, none, none, none, some ⟨none, none, none, none, none, none, none⟩⟩
          ⟨none, none, none, none, none, none, none⟩] ∧
    ((none : Option String) = none →
      (mkInvoiceRow (oneUserDb "u1" 0 none none).nextInvoiceId ((some "u1").getD "")
        tNow ⟨true, none, none, none, some ⟨none, none, none, none, none, none, none⟩⟩
        ⟨none, none, none, none, none, none, none⟩).supplier_name = "לא זוהה") ∧
    ((none : Option String) = none →
      (mkInvoiceRow (oneUserDb "u1" 0 none none).nextInvoiceId ((some "u1").getD "")
        tNow ⟨true, none, none, none, some ⟨none, none, none, none, none, none, none⟩⟩
        ⟨none, none, none, none, none, none, none⟩).document_number = "AUTO-" ++ toString tNow) ∧
    ((none : Option String) = none →
      (mkInvoiceRow (oneUserDb "u1" 0 none none).nextInvoiceId ((some "u1").getD "")
        tNow ⟨true, none, none, none, some ⟨none, none, none, none, none, none, none⟩⟩
        ⟨none, none, none, none, none, none, none⟩).document_date = isoDateOfMs tNow) ∧
    ((none : Option String) = none →
      (mkInvoiceRow (oneUserDb "u1" 0 none none).nextInvoiceId ((some "u1").getD "")
        tNow ⟨true, none, none, none, some ⟨none, none, none, none, none, none, none⟩⟩
        ⟨none, none, none, none, none, none, none⟩).business_type = "עוסק מורשה") ∧
    ((none : Option String) = none →
      (mkInvoiceRow (oneUserDb "u1" 0 none none).nextInvoiceId ((some "u1").getD "")
        tNow ⟨true, none, none, none, some ⟨none, none, none, none, none, none, none⟩⟩
        ⟨none, none, none, none, none, none, none⟩).category = "כללי") ∧
    ((none : Option String) = none →
      (mkInvoiceRow (oneUserDb "u1" 0 none none).nextInvoiceId ((some "u1").getD "")
        tNow ⟨true, none, none, none, some ⟨none, none, none, none, none, none, none⟩⟩
        ⟨none, none, none, none, none, none, none⟩).document_type = "חשבונית מס")) :=
  ⟨by decide,
   c8_amended_defaults
     (fun _ => some ⟨true, none, none, none, some ⟨none, none, none, none, none, none, none⟩⟩)
     tNow "raw" ⟨some "u1", some "B64", "application/pdf", "a.pdf", none⟩
     (oneUserDb "u1" 0 none none)
     ⟨true, none, none, none, some ⟨none, none, none, none, none, none, none⟩⟩
     ⟨none, none, none, none, none, none, none⟩
     (by decide) (by decide) (by decide) rfl rfl rfl⟩

/-- C8 counterexample: a verdict with is_invoice = true but no data object
does not invoke materialization — the handler takes the rejected branch and
creates no Invoice, while the claim asserts materialization runs for every
verdict with isInvoice = true. -/
theorem c8_invoice_without_data_not_materialized :
    (classifyDocument (fun _ => some ⟨true, none, none, none, none⟩) tNow
      (.ok "raw") ⟨some "u1", some "B64", "application/pdf", "a.pdf", none⟩
      (oneUserDb "u1" 0 none none)).db.invoices = [] ∧
    (classifyDocument (fun _ => some ⟨true, none, none, none, none⟩) tNow
      (.ok "raw") ⟨some "u1", some "B64", "application/pdf", "a.pdf", none⟩
      (oneUserDb "u1" 0 none none)).resp =
      .success ⟨true, none, none, none, none⟩ none := by
  decide

end Lnvy
